import Mathlib

/-!
Verification of src/tiktokBulkDownloader.py against its specification.

Strings from the Python program are modelled as lists of characters
(`List Char`), so that every operation used by the program (whitespace
trimming, prefix tests, substring search, substring replacement, slicing)
is an executable structurally recursive Lean function.  Each definition
below is a direct translation of the Python function of the same name;
the line numbers of the source are given in the comments.
-/

/-- Converts a Lean string literal to the character-list representation. -/
def str (s : String) : List Char := s.toList

/-- The characters treated as whitespace by the Python method strip. -/
def pyIsSpace (c : Char) : Bool :=
  c = ' ' || c = '\t' || c = '\n' || c = '\r' || c = '\x0b' || c = '\x0c'

/-- Python strip: removes leading and trailing whitespace. -/
def pyStrip (s : List Char) : List Char :=
  ((s.dropWhile pyIsSpace).reverse.dropWhile pyIsSpace).reverse

/-- Python substring membership test: pat in s. -/
def listContains (pat : List Char) : List Char → Bool
  | [] => pat.isPrefixOf []
  | c :: rest => pat.isPrefixOf (c :: rest) || listContains pat rest

/-- Python str.join with a separator, over a list of parts. -/
def pyJoin (sep : List Char) : List (List Char) → List Char
  | [] => []
  | [x] => x
  | x :: xs => x ++ sep ++ pyJoin sep xs

/-- Python str.lower, for the ASCII tokens used by the program. -/
def pyLower (s : List Char) : List Char := s.map Char.toLower

/-- Fuel-indexed core of Python str.replace: scans left to right and
replaces every non-overlapping occurrence of pat by rep.  Each step
consumes at least one character of the scanned string, so fuel equal to
the length of the string makes the function total and exact. -/
def pyReplaceAux (pat rep : List Char) : Nat → List Char → List Char
  | _, [] => []
  | 0, s => s
  | fuel + 1, c :: rest =>
    if !pat.isEmpty && pat.isPrefixOf (c :: rest) then
      rep ++ pyReplaceAux pat rep fuel ((c :: rest).drop pat.length)
    else
      c :: pyReplaceAux pat rep fuel rest

/-- Python s.replace(pat, rep), for a non-empty pattern. -/
def pyReplace (pat rep s : List Char) : List Char :=
  pyReplaceAux pat rep s.length s

/-- Python line.replace("Link: ", "") specialised to its concrete pattern,
written as a structurally recursive scan: every occurrence of the six
characters of the label is removed, exactly as str.replace does with an
empty replacement. -/
def stripLinkAll : List Char → List Char
  | 'L' :: 'i' :: 'n' :: 'k' :: ':' :: ' ' :: rest => stripLinkAll rest
  | c :: rest => c :: stripLinkAll rest
  | [] => []

/-- Loop body of clean_links_file (src lines 54-66): the Python for-loop
with its accumulator list cleaned_links.  Each line is stripped; blank
lines and lines starting with the date marker are skipped; lines starting
with the link label have every occurrence of the label removed. -/
def clean_links_loop (acc : List (List Char)) : List (List Char) → List (List Char)
  | [] => acc
  | l :: rest =>
    let line := pyStrip l
    if line.isEmpty || (str "Date:").isPrefixOf line then
      clean_links_loop acc rest
    else if (str "Link: ").isPrefixOf line then
      clean_links_loop (acc ++ [stripLinkAll line]) rest
    else
      clean_links_loop (acc ++ [line]) rest

/-- clean_links_file (src lines 44-69), on the list of lines of the input
file.  File access errors are outside the model; the function receives the
lines that the Python iteration over the file object yields. -/
def clean_links_file (lines : List (List Char)) : List (List Char) :=
  clean_links_loop [] lines

/-- get_simple_variable_mapping (src lines 71-112): the dictionary from
human-readable variable names to yt-dlp template placeholders, as the
lookup function that the Python dict provides.  The dictionary holds both
a lower-case and a mixed-case key for the two id variables; lookups in
build_custom_filename_template are made with the lowered name only. -/
def get_simple_variable_mapping (v : List Char) : Option (List Char) :=
  if v = str "title" then some (str "%(title).180B")
  else if v = str "creator" then some (str "%(uploader).50s")
  else if v = str "description" then some (str "%(description).100s")
  else if v = str "videoid" then some (str "%(id)s")
  else if v = str "videoID" then some (str "%(id)s")
  else if v = str "creatorid" then some (str "%(uploader_id)s")
  else if v = str "creatorID" then some (str "%(uploader_id)s")
  else if v = str "date" then some (str "%(upload_date>%Y-%m-%d)s")
  else if v = str "year" then some (str "%(upload_date>%Y)s")
  else if v = str "month" then some (str "%(upload_date>%m)s")
  else if v = str "day" then some (str "%(upload_date>%d)s")
  else if v = str "shortdate" then some (str "%(upload_date>%y%m%d)s")
  else if v = str "fulldate" then some (str "%(upload_date)s")
  else if v = str "views" then some (str "%(view_count)s")
  else if v = str "likes" then some (str "%(like_count)s")
  else if v = str "comments" then some (str "%(comment_count)s")
  else if v = str "shares" then some (str "%(repost_count)s")
  else if v = str "duration" then some (str "%(duration)s")
  else if v = str "resolution" then some (str "%(resolution)s")
  else if v = str "fps" then some (str "%(fps)s")
  else if v = str "format" then some (str "%(format_id)s")
  else if v = str "platform" then some (str "%(extractor)s")
  else if v = str "ext" then some (str "%(ext)s")
  else none

/-- build_custom_filename_template (src lines 114-141): each variable is
lowered and looked up in the mapping; recognized variables become their
placeholder, unrecognized ones pass through as literal text; the parts
are joined with underscores, and the extension placeholder is appended
when it is not already present. -/
def build_custom_filename_template (vars : List (List Char)) : List Char :=
  let template_parts := vars.map fun v =>
    match get_simple_variable_mapping (pyLower v) with
    | some t => t
    | none => v
  let template := pyJoin (str "_") template_parts
  if listContains (str "%(ext)s") template then template
  else template ++ str ".%(ext)s"

/-- Preset table entry default (src line 154). -/
def presets_default : List Char := str "%(upload_date).10s_%(uploader).50s_%(title).180B.%(ext)s"

/-- Preset table entry no-date (src line 155). -/
def presets_no_date : List Char := str "%(uploader).50s_%(title).180B.%(ext)s"

/-- Preset table entry title-only (src line 156). -/
def presets_title_only : List Char := str "%(title).200B.%(ext)s"

/-- Preset table entry creator-id (src line 157). -/
def presets_creator_id : List Char := str "%(uploader)s_%(id)s.%(ext)s"

/-- Preset table entry date-title (src line 158). -/
def presets_date_title : List Char := str "%(upload_date)s_%(title).150B.%(ext)s"

/-- Preset table entry clean (src line 159). -/
def presets_clean : List Char := str "%(uploader)s_%(title).100s.%(ext)s"

/-- The preset dictionary of get_filename_template (src lines 153-160),
as a lookup function on preset names. -/
def presets_find (name : List Char) : Option (List Char) :=
  if name = str "default" then some presets_default
  else if name = str "no-date" then some presets_no_date
  else if name = str "title-only" then some presets_title_only
  else if name = str "creator-id" then some presets_creator_id
  else if name = str "date-title" then some presets_date_title
  else if name = str "clean" then some presets_clean
  else none

/-- The argument dictionary consumed by get_filename_template: the fields
that the function reads with args.get.  Absent keys are none or false. -/
structure Args where
  filename_custom : Option (List (List Char)) := none
  custom_template : Option (List Char) := none
  no_date : Bool := false
  title_only : Bool := false
  creator_id : Bool := false
  filename_preset : Option (List Char) := none
deriving DecidableEq

/-- Python truthiness of an optional list value: absent and empty are
both falsy, as for args.get of a missing or empty list. -/
def truthy_list (o : Option (List (List Char))) : Bool :=
  match o with
  | none => false
  | some vs => !vs.isEmpty

/-- Python truthiness of an optional string value: absent and empty are
both falsy. -/
def truthy_chars (o : Option (List Char)) : Bool :=
  match o with
  | none => false
  | some s => !s.isEmpty

/-- Result of get_filename_template: the chosen template, and whether the
unknown-preset warning of src line 186 was printed. -/
structure ResolveResult where
  template : List Char
  warned : Bool
deriving DecidableEq

/-- get_filename_template (src lines 143-190): the priority chain over
the argument dictionary.  Guards are Python truthiness tests, so an
empty variable list, an empty template string or an empty preset name
behave like an absent key, exactly as args.get does. -/
def get_filename_template (args : Args) : ResolveResult :=
  if truthy_list args.filename_custom then
    { template := build_custom_filename_template (args.filename_custom.getD []),
      warned := false }
  else if truthy_chars args.custom_template then
    { template := args.custom_template.getD [], warned := false }
  else if args.no_date then
    { template := presets_no_date, warned := false }
  else if args.title_only then
    { template := presets_title_only, warned := false }
  else if args.creator_id then
    { template := presets_creator_id, warned := false }
  else if truthy_chars args.filename_preset then
    match presets_find (args.filename_preset.getD []) with
    | some t => { template := t, warned := false }
    | none => { template := presets_default, warned := true }
  else
    { template := presets_default, warned := false }

/-- validate_filename_template (src lines 192-211): returns false exactly
when the extension placeholder is absent.  The content-identifier check
of src lines 207-209 only prints a warning and does not affect the
returned value. -/
def validate_filename_template (template : List Char) : Bool :=
  if !listContains (str "%(ext)s") template then false
  else true

/-- The manual template substitution of show_filename_preview
(src lines 374-397), the in-repository rendering of a filename template
from concrete metadata values.  The caller passes the metadata fields
after the defaults of src lines 374-378 have been applied; upload_date is
the raw YYYYMMDD string. -/
def preview_substitute (template upload_date uploader title video_id : List Char) : List Char :=
  let formatted_dt :=
    if !upload_date.isEmpty then
      upload_date.take 4 ++ str "-" ++ (upload_date.drop 4).take 2 ++ str "-" ++ upload_date.drop 6
    else str "2022-06-07"
  let s := pyReplace (str "%(upload_date).10s") formatted_dt template
  let s := pyReplace (str "%(upload_date>%Y-%m-%d)s") formatted_dt s
  let s := pyReplace (str "%(upload_date>%Y)s")
    (if !upload_date.isEmpty then upload_date.take 4 else str "2024") s
  let s := pyReplace (str "%(upload_date>%m)s")
    (if !upload_date.isEmpty then (upload_date.drop 4).take 2 else str "01") s
  let s := pyReplace (str "%(upload_date>%d)s")
    (if !upload_date.isEmpty then (upload_date.drop 6).take 2 else str "01") s
  let s := pyReplace (str "%(upload_date>%y%m%d)s")
    (if !upload_date.isEmpty then upload_date.drop 2 else str "240101") s
  let s := pyReplace (str "%(upload_date)s") upload_date s
  let s := pyReplace (str "%(uploader).50s") (uploader.take 50) s
  let s := pyReplace (str "%(uploader)s") uploader s
  let s := pyReplace (str "%(title).180B") (title.take 180) s
  let s := pyReplace (str "%(title).200B") (title.take 200) s
  let s := pyReplace (str "%(title).150B") (title.take 150) s
  let s := pyReplace (str "%(title).100s") (title.take 100) s
  let s := pyReplace (str "%(title)s") title s
  let s := pyReplace (str "%(id)s") video_id s
  pyReplace (str "%(ext)s") (str "mp4") s

/-- The metadata record returned by the external tool for one video, as
read by download_with_ytdlp (src lines 520-538).  Absent fields are none.
Numeric fields are carried as their decimal string forms, which is what
the csv writer emits for them; height is kept as a number because the
code tests its Python truthiness (zero is falsy). -/
structure Meta where
  upload_date : Option (List Char) := none
  uploader : Option (List Char) := none
  title : Option (List Char) := none
  duration : Option (List Char) := none
  view_count : Option (List Char) := none
  like_count : Option (List Char) := none
  comment_count : Option (List Char) := none
  repost_count : Option (List Char) := none
  height : Option Nat := none
deriving DecidableEq

/-- The formatted date of src lines 523-524: the raw upload date sliced
into YYYY-MM-DD unless it is the default placeholder. -/
def formatted_date (d : Meta) : List Char :=
  let u := d.upload_date.getD (str "0000-00-00")
  if u ≠ str "0000-00-00" then
    u.take 4 ++ str "-" ++ (u.drop 4).take 2 ++ str "-" ++ u.drop 6
  else u

/-- The resolution column of src line 538: the height with a p suffix
when the height field is present and truthy, else empty. -/
def heightField (h : Option Nat) : List Char :=
  match h with
  | some n => if n ≠ 0 then (toString n).toList ++ [ 'p'] else []
  | none => []

/-- One row of the success log. -/
abbrev AuditRow := List (List Char)

/-- The Filename column of the audit row (src line 532): a fixed string
built from the metadata, with no reference to the filename template. -/
def audit_filename (d : Meta) : List Char :=
  formatted_date d ++ str " - " ++ d.uploader.getD (str "unknown_uploader")
    ++ str " - " ++ d.title.getD (str "Untitled")

/-- The row appended to downloaded_metadata on a success
(src lines 527-539). -/
def make_audit_row (d : Meta) (link : List Char) : AuditRow :=
  [ formatted_date d,
    d.uploader.getD (str "unknown_uploader"),
    d.title.getD (str "Untitled"),
    link,
    audit_filename d,
    d.duration.getD [],
    d.view_count.getD [],
    d.like_count.getD [],
    d.comment_count.getD [],
    d.repost_count.getD [],
    heightField d.height ]

/-- The header row written by save_metadata_to_csv (src line 41). -/
def csv_header : List (List Char) :=
  [str "Upload Date", str "Uploader", str "Title", str "URL", str "Filename",
   str "Duration (sec)", str "View Count", str "Like Count", str "Comment Count",
   str "Repost Count", str "Resolution"]

/-- The success log file written by one flush. -/
structure CsvFile where
  header : List (List Char)
  rows : List AuditRow
deriving DecidableEq

/-- save_metadata_to_csv (src lines 27-42): a no-op when the buffer is
empty, otherwise it writes the header and exactly the buffered rows to a
fresh file. -/
def save_metadata_to_csv (buffer : List AuditRow) : Option CsvFile :=
  if buffer.isEmpty then none
  else some { header := csv_header, rows := buffer }

/-- signal_handler (src lines 16-25): on interrupt, the buffer is flushed
through save_metadata_to_csv when it is non-empty, then the process
exits.  The value is the success log left on disk. -/
def signal_handler (buffer : List AuditRow) : Option CsvFile :=
  if !buffer.isEmpty then save_metadata_to_csv buffer else none

/-- The observable result of one pass of the download loop of
download_with_ytdlp (src lines 477-551) over its list of links. -/
structure PassResult where
  rows : List AuditRow
  succ : Nat
  fails : List (List Char)
deriving DecidableEq

/-- The environment: for each pass index and link, the outcome of the
external subprocess calls for that link on that pass.  some d means the
download and the metadata fetch both succeeded and yielded d; none means
the job failed (download error, metadata fetch error or malformed
metadata all reach the same except branch at src lines 544-551). -/
abbrev Env := Nat → List Char → Option Meta

/-- One pass of the download loop (src lines 477-551): jobs run strictly
in input order; a success appends its audit row to the buffer and bumps
the success counter; a failure appends the link to failed_links. -/
def run_pass (outcome : List Char → Option Meta) : List (List Char) → PassResult
  | [] => { rows := [], succ := 0, fails := [] }
  | link :: rest =>
    match outcome link with
    | some d =>
      let r := run_pass outcome rest
      { rows := make_audit_row d link :: r.rows, succ := r.succ + 1, fails := r.fails }
    | none =>
      let r := run_pass outcome rest
      { rows := r.rows, succ := r.succ, fails := link :: r.fails }

/-- The observable outcome of a whole call tree of download_with_ytdlp:
how many times save_metadata_to_csv was invoked, the success log written
by the final flush if any, the printed final summary (successes,
failures, total of the pass that printed it), the final in-memory buffer,
the per-pass link lists that were submitted, the failed links remaining
at the end, and the total success count. -/
structure RunResult where
  flush_count : Nat
  csv : Option CsvFile
  summary : Option (Nat × Nat × Nat)
  buffer : List AuditRow
  submitted : List (List (List Char))
  final_failed : List (List Char)
  total_succ : Nat
deriving DecidableEq

/-- download_with_ytdlp (src lines 437-570) with the global state made
explicit: retry_attempted is the module-level flag of src line 14 and
buffer is the global downloaded_metadata list.  After the pass, the
function recurses once on the failed links when the flag is still unset
(src lines 554-557); otherwise failures are only logged (src lines
558-563).  The final block of src lines 566-570 flushes and prints the
summary exactly when the flag is unset or the pass had no failures; after
the recursive call returns, the flag is set and the outer failed_links is
non-empty, so the outer frame never flushes again. -/
def run_ytdlp (env : Env) (passIdx : Nat) (retry_attempted : Bool)
    (buffer : List AuditRow) (links : List (List Char)) : RunResult :=
  let p := run_pass (env passIdx) links
  let buf := buffer ++ p.rows
  if h : p.fails ≠ [] ∧ retry_attempted = false then
    let inner := run_ytdlp env (passIdx + 1) true buf p.fails
    { flush_count := inner.flush_count
      csv := inner.csv
      summary := inner.summary
      buffer := inner.buffer
      submitted := links :: inner.submitted
      final_failed := inner.final_failed
      total_succ := p.succ + inner.total_succ }
  else if p.fails ≠ [] then
    { flush_count := 0
      csv := none
      summary := none
      buffer := buf
      submitted := [links]
      final_failed := p.fails
      total_succ := p.succ }
  else
    { flush_count := 1
      csv := save_metadata_to_csv buf
      summary := some (p.succ, p.fails.length, links.length)
      buffer := buf
      submitted := [links]
      final_failed := []
      total_succ := p.succ }
termination_by bif retry_attempted then 0 else 1
decreasing_by
  simp [h.2]

/-- A full run as main performs it (src line 800): the globals start as
the empty buffer and an unset retry flag.  The filename_template argument
only shapes the yt-dlp command line, whose outcome the environment env
abstracts; it is never read when building audit rows. -/
def download_run (env : Env) (filename_template : Option (List Char))
    (links : List (List Char)) : RunResult :=
  run_ytdlp env 0 false [] links

/-- Number of data rows in an optional success log; a file that was never
written holds zero rows. -/
def csvRowsOpt : Option CsvFile → Nat
  | none => 0
  | some f => f.rows.length

/-- The in-memory buffer at an interrupt point: either after the first k
jobs of the first pass, or, when in_retry is set, after the first k jobs
of the retry pass (the buffer then already holds every first-pass row). -/
def buffer_mid (env : Env) (links : List (List Char)) (in_retry : Bool) (k : Nat) :
    List AuditRow :=
  if in_retry then
    (run_pass (env 0) links).rows
      ++ (run_pass (env 1) ((run_pass (env 0) links).fails.take k)).rows
  else (run_pass (env 0) (links.take k)).rows

/-- The number of links that have succeeded at the same interrupt point. -/
def succ_mid (env : Env) (links : List (List Char)) (in_retry : Bool) (k : Nat) : Nat :=
  if in_retry then
    (run_pass (env 0) links).succ
      + (run_pass (env 1) ((run_pass (env 0) links).fails.take k)).succ
  else (run_pass (env 0) (links.take k)).succ

/-- Declarative form of the Link Normalizer, stated from the spec words
as amended: the stripped lines, in original order, without blanks and
date-annotation lines, and with every occurrence of the link label
removed from lines that begin with it.  Compared below with the loop
translation clean_links_file. -/
def clean_spec (lines : List (List Char)) : List (List Char) :=
  ((lines.map pyStrip).filter fun l => !(l.isEmpty || (str "Date:").isPrefixOf l)).map
    fun l => if (str "Link: ").isPrefixOf l then stripLinkAll l else l

/-- A typical metadata record used for concrete scenarios. -/
def meta0 : Meta :=
  { upload_date := some (str "20220607"), uploader := some (str "creator"),
    title := some (str "clip") }

/-- A first concrete link. -/
def link1 : List Char := str "https://x/video/1"

/-- A second concrete link. -/
def link2 : List Char := str "https://x/video/2"

/-- An environment in which every subprocess call fails on every pass. -/
def env_fail : Env := fun _ _ => none

/-- An environment in which every subprocess call succeeds. -/
def env_ok : Env := fun _ _ => some meta0

/-- An environment in which link1 always succeeds and every other link
always fails, on both passes. -/
def env_mixed : Env := fun _ l => if l = link1 then some meta0 else none

/-- The argument dictionary of a run given no naming option. -/
def no_naming_args : Args := {}

/-- The argument dictionary of a run given only a raw advanced template
that passed validation. -/
def args_raw : Args := { custom_template := some (str "%(id)s.%(ext)s") }

/-! Helper lemmas. -/

theorem listContains_nil_pat (ys : List Char) : listContains [] ys = true := by
  cases ys <;> simp [listContains, List.isPrefixOf]

theorem listContains_append_right (p ys : List Char) (h : listContains p ys = true)
    (xs : List Char) : listContains p (xs ++ ys) = true := by
  induction xs with
  | nil => simpa using h
  | cons c cs ih => simp [listContains, ih]

theorem listContains_append_left (p : List Char) (ys : List Char) :
    ∀ xs, listContains p xs = true → listContains p (xs ++ ys) = true := by
  intro xs
  induction xs with
  | nil =>
    intro h
    cases p with
    | nil => simpa using listContains_nil_pat ys
    | cons c cs => simp [listContains, List.isPrefixOf] at h
  | cons c cs ih =>
    intro h
    have h' : p.isPrefixOf (c :: cs) = true ∨ listContains p cs = true := by
      simpa [listContains] using h
    rcases h' with h1 | h2
    · have hp : p <+: (c :: cs) ++ ys :=
        (List.isPrefixOf_iff_prefix.mp h1).trans (List.prefix_append _ _)
      simp only [listContains, List.cons_append, Bool.or_eq_true]
      exact Or.inl (by simpa using List.isPrefixOf_iff_prefix.mpr hp)
    · simp [listContains, ih h2]

theorem listContains_self_append (p b : List Char) :
    listContains p (p ++ b) = true := by
  cases p with
  | nil => exact listContains_nil_pat b
  | cons c cs =>
    have hp : (c :: cs) <+: (c :: cs) ++ b := List.prefix_append _ _
    simp [listContains, List.isPrefixOf_iff_prefix.mpr hp]

theorem pyJoin_mem_decomp (sep v : List Char) :
    ∀ parts : List (List Char), v ∈ parts →
      ∃ a b, pyJoin sep parts = a ++ (v ++ b) := by
  intro parts
  induction parts with
  | nil => simp
  | cons x xs ih =>
    intro hv
    cases xs with
    | nil =>
      have hx : v = x := by simpa using hv
      subst hx
      exact ⟨[], [], by simp [pyJoin]⟩
    | cons y ys =>
      rcases List.mem_cons.mp hv with h | h
      · subst h
        exact ⟨[], sep ++ pyJoin sep (y :: ys), by simp [pyJoin]⟩
      · rcases ih h with ⟨a, b, hab⟩
        exact ⟨x ++ sep ++ a, b, by simp [pyJoin, hab]⟩

theorem mem_part_contains (vs : List (List Char)) (w : List Char)
    (h : w ∈ vs.map fun v =>
      match get_simple_variable_mapping (pyLower v) with
      | some t => t
      | none => v) :
    listContains w (build_custom_filename_template vs) = true := by
  obtain ⟨a, b, hab⟩ := pyJoin_mem_decomp (str "_") w _ h
  simp only [build_custom_filename_template]
  split
  · rw [hab]
    exact listContains_append_right _ _ (listContains_self_append w b) a
  · rw [hab]
    exact listContains_append_left _ _ _
      (listContains_append_right _ _ (listContains_self_append w b) a)

theorem ext_in_build_custom (vs : List (List Char)) :
    listContains (str "%(ext)s") (build_custom_filename_template vs) = true := by
  simp only [build_custom_filename_template]
  split
  · assumption
  · exact listContains_append_right _ _ (by decide) _

theorem validate_true_iff (t : List Char) :
    validate_filename_template t = true ↔ listContains (str "%(ext)s") t = true := by
  simp only [validate_filename_template]
  cases h : listContains (str "%(ext)s") t <;> simp

theorem presets_find_ext (name t : List Char) (h : presets_find name = some t) :
    listContains (str "%(ext)s") t = true := by
  simp only [presets_find] at h
  split at h <;> try split at h
  all_goals first
    | (cases h; decide)
    | (split at h <;> first
        | (cases h; decide)
        | (split at h <;> first
            | (cases h; decide)
            | (split at h <;> first
                | (cases h; decide)
                | (split at h <;> (first | (cases h; decide) | cases h)))))

theorem run_pass_rows_length (f : List Char → Option Meta) :
    ∀ links, (run_pass f links).rows.length = (run_pass f links).succ := by
  intro links
  induction links with
  | nil => simp [run_pass]
  | cons l rest ih => cases h : f l <;> simp [run_pass, h, ih]

theorem csvRowsOpt_save (b : List AuditRow) :
    csvRowsOpt (save_metadata_to_csv b) = b.length := by
  cases b <;> simp [save_metadata_to_csv, csvRowsOpt]

theorem csvRowsOpt_signal (b : List AuditRow) :
    csvRowsOpt (signal_handler b) = b.length := by
  cases b <;> simp [signal_handler, save_metadata_to_csv, csvRowsOpt]

theorem clean_links_loop_eq :
    ∀ lines acc, clean_links_loop acc lines = acc ++ clean_spec lines := by
  intro lines
  induction lines with
  | nil => intro acc; simp [clean_links_loop, clean_spec]
  | cons l rest ih =>
    intro acc
    cases hb : ((pyStrip l).isEmpty || (str "Date:").isPrefixOf (pyStrip l)) with
    | true =>
      simp only [clean_links_loop, hb, if_true]
      rw [ih]
      congr 1
      rcases Bool.or_eq_true_iff.mp hb with ha | hd
      · simp [clean_spec, List.filter_cons, ha]
      · simp [clean_spec, List.filter_cons, hd]
    | false =>
      have h1 : (pyStrip l).isEmpty = false := (Bool.or_eq_false_iff.mp hb).1
      have h2 : (str "Date:").isPrefixOf (pyStrip l) = false := (Bool.or_eq_false_iff.mp hb).2
      cases hl : (str "Link: ").isPrefixOf (pyStrip l) with
      | true =>
        simp only [clean_links_loop, hb, hl, Bool.false_eq_true, if_false, if_true]
        rw [ih]
        simp [clean_spec, List.filter_cons, h1, h2, hl, List.append_assoc]
        rw [if_pos (List.isPrefixOf_iff_prefix.mp hl)]
      | false =>
        have hl' : ¬(str "Link: " <+: pyStrip l) := by
          simp [← List.isPrefixOf_iff_prefix, hl]
        simp only [clean_links_loop, hb, hl, Bool.false_eq_true, if_false]
        rw [ih]
        simp [clean_spec, List.filter_cons, h1, h2, hl, List.append_assoc]
        rw [if_neg hl']

/-! Claim theorems. -/

/-- Claim C5 counterexample: the claim says the Link label prefix is
stripped from the remaining lines, so on the single line
Link: Link: https://x/video/2 it predicts the output
Link: https://x/video/2; the code instead removes every occurrence of the
label from such a line and returns https://x/video/2. -/
theorem C5_counterexample :
    clean_links_file [str "Link: Link: https://x/video/2"] = [str "https://x/video/2"] ∧
    clean_links_file [str "Link: Link: https://x/video/2"] ≠ [str "Link: https://x/video/2"] := by
  constructor
  · decide
  · decide

/-- Claim C5 (amended): the Link Normalizer returns the whitespace
stripped lines in their original order, excluding every blank line and
every line beginning with the date-annotation marker, and with every
occurrence of the Link label (not only the leading one) removed from the
lines that begin with it; in particular the four-line scenario input
normalizes to the expected two links. -/
theorem C5_clean_links_amended :
    (∀ lines, clean_links_file lines = clean_spec lines) ∧
    clean_links_file
        [str "https://x/video/1", [], str "Date: 2024-01-01", str "Link: https://x/video/2"]
      = [str "https://x/video/1", str "https://x/video/2"] := by
  constructor
  · intro lines
    simpa using clean_links_loop_eq lines []
  · decide

/-- Claim C2: the retry pass runs if and only if the first pass ends with
at least one failed link, the retried batch is exactly the list of
first-pass failures, and no third pass ever occurs: the submitted pass
list of a run never has more than two entries. -/
theorem C2_retry_iff_first_pass_failure (env : Env) (t : Option (List Char))
    (links : List (List Char)) :
    (download_run env t links).submitted =
      if (run_pass (env 0) links).fails = [] then [links]
      else [links, (run_pass (env 0) links).fails] := by
  unfold download_run
  unfold run_ytdlp
  by_cases h : (run_pass (env 0) links).fails = []
  · simp [h]
  · simp only [h, if_false]
    unfold run_ytdlp
    by_cases h2 : (run_pass (env 1) (run_pass (env 0) links).fails).fails = []
    · simp [h, h2]
    · simp [h, h2]

/-- Claim C1 (code bug evaluation): in a run over one link that fails on
both passes, the final guard of src line 566 is false in both the inner
and the outer frame, so save_metadata_to_csv is never invoked and no
summary is printed, although the claim requires exactly one flush and a
summary in every run, including the one in which failures remain after
the retry pass.  The second conjunct shows the flush and summary do
happen exactly once whenever no failures remain, so the bug is confined
to the failures-remain case. -/
theorem C1_flush_skipped_when_failures_remain :
    ((download_run env_fail none [link1]).flush_count = 0 ∧
     (download_run env_fail none [link1]).summary = none) ∧
    (∀ env t links, (download_run env t links).final_failed = [] →
      (download_run env t links).flush_count = 1 ∧
      (download_run env t links).summary ≠ none) := by
  constructor
  · constructor
    · unfold download_run run_ytdlp
      simp [run_pass, env_fail]
      unfold run_ytdlp
      simp [run_pass, env_fail]
    · unfold download_run run_ytdlp
      simp [run_pass, env_fail]
      unfold run_ytdlp
      simp [run_pass, env_fail]
  · intro env t links h
    unfold download_run at h ⊢
    unfold run_ytdlp at h ⊢
    by_cases h1 : (run_pass (env 0) links).fails = []
    · simp [h1]
    · simp only [h1] at h ⊢
      unfold run_ytdlp at h ⊢
      by_cases h2 : (run_pass (env 1) (run_pass (env 0) links).fails).fails = []
      · simp [h1, h2]
      · simp [h1, h2] at h

/-- Claim C1 witness: in a run with no remaining failures the flush
happens exactly once and a summary is printed. -/
theorem C1_flush_witness :
    (download_run env_ok none [link2]).flush_count = 1 ∧
    (download_run env_ok none [link2]).summary ≠ none := by
  exact C1_flush_skipped_when_failures_remain.2 env_ok none [link2] (by
    unfold download_run run_ytdlp
    simp [run_pass, env_ok])

/-- Claim C3 (code bug evaluation): in the run where link1 succeeds and
link2 fails on both passes, the success CSV is never written (zero rows)
although one link succeeded, contradicting the claim that the row count
always equals the number of Succeeded links.  The other conjuncts show
the accounting the claim describes does hold on every path on which the
flush occurs: the flush writes exactly the buffered rows under the fixed
header, and the row count equals the success count whenever no failures
remain at the end of the run. -/
theorem C3_csv_rowcount :
    ((download_run env_mixed none [link1, link2]).csv = none ∧
     (download_run env_mixed none [link1, link2]).total_succ = 1) ∧
    (∀ b : List AuditRow, b ≠ [] →
      save_metadata_to_csv b = some { header := csv_header, rows := b }) ∧
    (∀ env t links, (download_run env t links).final_failed = [] →
      csvRowsOpt (download_run env t links).csv = (download_run env t links).total_succ) := by
  refine ⟨?_, ?_, ?_⟩
  · have e1 : env_mixed 0 link1 = some meta0 := by simp [env_mixed]
    have e2 : env_mixed 0 link2 = none := by
      simp only [env_mixed]
      rw [if_neg (by decide)]
    have e3 : env_mixed 1 link2 = none := by
      simp only [env_mixed]
      rw [if_neg (by decide)]
    constructor
    · unfold download_run run_ytdlp
      simp [run_pass, e1, e2]
      unfold run_ytdlp
      simp [run_pass, e3]
    · unfold download_run run_ytdlp
      simp [run_pass, e1, e2]
      unfold run_ytdlp
      simp [run_pass, e3]
  · intro b hb
    cases b with
    | nil => exact absurd rfl hb
    | cons r rs => simp [save_metadata_to_csv]
  · intro env t links h
    unfold download_run at h ⊢
    unfold run_ytdlp at h ⊢
    by_cases h1 : (run_pass (env 0) links).fails = []
    · simp [h1, csvRowsOpt_save, run_pass_rows_length]
    · simp only [h1] at h ⊢
      unfold run_ytdlp at h ⊢
      by_cases h2 : (run_pass (env 1) (run_pass (env 0) links).fails).fails = []
      · simp [h1, h2, csvRowsOpt_save, run_pass_rows_length]
      · simp [h1, h2] at h

/-- Claim C3 witness: the flush writes the buffered row under the fixed
header, and in a run that flushes, the row count equals the success
count. -/
theorem C3_csv_witness :
    save_metadata_to_csv [make_audit_row meta0 link1]
        = some { header := csv_header, rows := [make_audit_row meta0 link1] } ∧
    csvRowsOpt (download_run env_ok none [link1]).csv
      = (download_run env_ok none [link1]).total_succ := by
  constructor
  · exact C3_csv_rowcount.2.1 _ (by simp)
  · exact C3_csv_rowcount.2.2 env_ok none [link1] (by
      unfold download_run run_ytdlp
      simp [run_pass, env_ok])

/-- Claim C4: interrupting the run at any point, after any number k of
jobs of the first pass or of the retry pass, leaves a success log whose
data row count equals the number of links that have succeeded so far;
when nothing has succeeded yet, the handler writes no file, which is
zero rows. -/
theorem C4_interrupt_rows (env : Env) (links : List (List Char))
    (in_retry : Bool) (k : Nat) :
    csvRowsOpt (signal_handler (buffer_mid env links in_retry k))
      = succ_mid env links in_retry k := by
  rw [csvRowsOpt_signal]
  cases in_retry <;> simp [buffer_mid, succ_mid, run_pass_rows_length]

/-- Claim C6: the Filename Template Resolver is deterministic; its result
contains the extension placeholder whenever any raw advanced template in
the configuration passed validation (which main enforces at src lines
696-699 before any job runs); and validation rejects every template that
lacks the extension placeholder. -/
theorem C6_resolver_ext :
    (∀ a b : Args, a = b → get_filename_template a = get_filename_template b) ∧
    (∀ args : Args,
      (∀ t, args.custom_template = some t → validate_filename_template t = true) →
      listContains (str "%(ext)s") (get_filename_template args).template = true) ∧
    (∀ t : List Char, listContains (str "%(ext)s") t = false →
      validate_filename_template t = false) := by
  refine ⟨fun a b h => h ▸ rfl, ?_, ?_⟩
  · intro args hval
    unfold get_filename_template
    by_cases hc : truthy_list args.filename_custom = true
    · simp only [hc, if_true]
      exact ext_in_build_custom _
    · simp only [eq_false_of_ne_true hc, Bool.false_eq_true, if_false]
      by_cases ht : truthy_chars args.custom_template = true
      · simp only [ht, if_true]
        cases hopt : args.custom_template with
        | none => rw [hopt] at ht; simp [truthy_chars] at ht
        | some t =>
          have hv := hval t hopt
          rw [validate_true_iff] at hv
          simpa [hopt] using hv
      · simp only [eq_false_of_ne_true ht, Bool.false_eq_true, if_false]
        by_cases hn : args.no_date = true
        · simp only [hn, if_true]; decide
        · simp only [eq_false_of_ne_true hn, Bool.false_eq_true, if_false]
          by_cases hto : args.title_only = true
          · simp only [hto, if_true]; decide
          · simp only [eq_false_of_ne_true hto, Bool.false_eq_true, if_false]
            by_cases hci : args.creator_id = true
            · simp only [hci, if_true]; decide
            · simp only [eq_false_of_ne_true hci, Bool.false_eq_true, if_false]
              by_cases hp : truthy_chars args.filename_preset = true
              · simp only [hp, if_true]
                cases hf : presets_find (args.filename_preset.getD []) with
                | none => simp; decide
                | some t => simpa using presets_find_ext _ t hf
              · simp only [eq_false_of_ne_true hp, Bool.false_eq_true, if_false]
                decide
  · intro t h
    simp [validate_filename_template, h]

/-- Claim C6 witness: for a configuration holding a validated raw
template, the resolved template contains the extension placeholder. -/
theorem C6_resolver_ext_witness :
    listContains (str "%(ext)s") (get_filename_template args_raw).template = true := by
  exact C6_resolver_ext.2.1 args_raw (by
    intro t ht
    injection ht with h
    rw [← h]
    decide)

/-- Claim C7 counterexample: with no naming option supplied, the resolver
returns the default preset of the preset table, which joins date,
uploader and title with underscores; it is not the dash-joined template
the claim describes, and its rendering contains no dash separator. -/
theorem C7_default_not_dash_joined :
    (get_filename_template no_naming_args).template = presets_default ∧
    (get_filename_template no_naming_args).template
      ≠ str "%(upload_date).10s - %(uploader).50s - %(title).180B.%(ext)s" ∧
    listContains (str " - ") (get_filename_template no_naming_args).template = false ∧
    preview_substitute (get_filename_template no_naming_args).template
        (str "20220607") (str "creator") (str "clip") (str "123")
      = str "2022-06-07_creator_clip.mp4" := by
  refine ⟨by decide, by decide, by decide, by decide⟩

/-- Claim C7 (amended): the resolver applies its sources in the fixed
priority order, first match wins: explicit variable list, then raw
advanced template, then the convenience flags no-date, title-only and
creator-id, then the named preset lookup (falling back to the default on
an unknown name), then the default preset, which is the underscore-joined
date, uploader, title template of the preset table rather than a
dash-joined one. -/
theorem C7_priority_order (args : Args) :
    (truthy_list args.filename_custom = true →
      get_filename_template args =
        { template := build_custom_filename_template (args.filename_custom.getD []),
          warned := false }) ∧
    (truthy_list args.filename_custom = false →
      truthy_chars args.custom_template = true →
      get_filename_template args =
        { template := args.custom_template.getD [], warned := false }) ∧
    (truthy_list args.filename_custom = false →
      truthy_chars args.custom_template = false → args.no_date = true →
      get_filename_template args = { template := presets_no_date, warned := false }) ∧
    (truthy_list args.filename_custom = false →
      truthy_chars args.custom_template = false → args.no_date = false →
      args.title_only = true →
      get_filename_template args = { template := presets_title_only, warned := false }) ∧
    (truthy_list args.filename_custom = false →
      truthy_chars args.custom_template = false → args.no_date = false →
      args.title_only = false → args.creator_id = true →
      get_filename_template args = { template := presets_creator_id, warned := false }) ∧
    (truthy_list args.filename_custom = false →
      truthy_chars args.custom_template = false → args.no_date = false →
      args.title_only = false → args.creator_id = false →
      truthy_chars args.filename_preset = true →
      get_filename_template args =
        { template := (presets_find (args.filename_preset.getD [])).getD presets_default,
          warned := (presets_find (args.filename_preset.getD [])).isNone }) ∧
    (truthy_list args.filename_custom = false →
      truthy_chars args.custom_template = false → args.no_date = false →
      args.title_only = false → args.creator_id = false →
      truthy_chars args.filename_preset = false →
      get_filename_template args = { template := presets_default, warned := false }) := by
  refine ⟨?_, ?_, ?_, ?_, ?_, ?_, ?_⟩
  · intro h1
    simp [get_filename_template, h1]
  · intro h1 h2
    simp [get_filename_template, h1, h2]
  · intro h1 h2 h3
    simp [get_filename_template, h1, h2, h3]
  · intro h1 h2 h3 h4
    simp [get_filename_template, h1, h2, h3, h4]
  · intro h1 h2 h3 h4 h5
    simp [get_filename_template, h1, h2, h3, h4, h5]
  · intro h1 h2 h3 h4 h5 h6
    simp only [get_filename_template, h1, h2, h3, h4, h5, h6, Bool.false_eq_true,
      if_false, if_true]
    cases presets_find (args.filename_preset.getD []) <;> simp
  · intro h1 h2 h3 h4 h5 h6
    simp [get_filename_template, h1, h2, h3, h4, h5, h6]

/-- Claim C7 witness: with no naming option, the resolver returns the
default preset with no warning. -/
theorem C7_priority_witness :
    get_filename_template no_naming_args = { template := presets_default, warned := false } :=
  (C7_priority_order no_naming_args).2.2.2.2.2.2 rfl rfl rfl rfl rfl rfl

/-- Claim C8: in the custom-filename builder every recognized token is
replaced by its Variable Table placeholder and every unrecognized token
passes through as literal text, each appearing verbatim in the
underscore-joined template; and the scenario list date, creator, videoID
builds the expected template, which the in-repository renderer resolves
to 2024-12-07_alice_999.mp4 under the scenario metadata. -/
theorem C8_custom_builder (vs : List (List Char)) (v : List Char) :
    (v ∈ vs → get_simple_variable_mapping (pyLower v) = none →
      listContains v (build_custom_filename_template vs) = true) ∧
    (∀ p, v ∈ vs → get_simple_variable_mapping (pyLower v) = some p →
      listContains p (build_custom_filename_template vs) = true) ∧
    build_custom_filename_template [str "date", str "creator", str "videoID"]
      = str "%(upload_date>%Y-%m-%d)s_%(uploader).50s_%(id)s.%(ext)s" ∧
    preview_substitute
        (build_custom_filename_template [str "date", str "creator", str "videoID"])
        (str "20241207") (str "alice") (str "sometitle") (str "999")
      = str "2024-12-07_alice_999.mp4" := by
  refine ⟨?_, ?_, by decide, by decide⟩
  · intro hv hm
    exact mem_part_contains vs v (List.mem_map.mpr ⟨v, hv, by simp [hm]⟩)
  · intro p hv hm
    exact mem_part_contains vs p (List.mem_map.mpr ⟨v, hv, by simp [hm]⟩)

/-- Claim C8 witness: an unrecognized token appears verbatim in the built
template, and the placeholder of a recognized token appears in it. -/
theorem C8_custom_builder_witness :
    listContains (str "xyz") (build_custom_filename_template [str "xyz", str "date"]) = true ∧
    listContains (str "%(upload_date>%Y-%m-%d)s")
      (build_custom_filename_template [str "xyz", str "date"]) = true := by
  constructor
  · exact (C8_custom_builder [str "xyz", str "date"] (str "xyz")).1 (by decide) (by decide)
  · exact (C8_custom_builder [str "xyz", str "date"] (str "date")).2.1
      (str "%(upload_date>%Y-%m-%d)s") (by decide) (by decide)

/-- Claim C9: when none of the higher-priority naming options is active
and the supplied preset name is non-empty and absent from the preset
table, the resolver prints the unknown-preset warning and returns the
default preset template instead of failing. -/
theorem C9_unknown_preset (args : Args) (p : List Char)
    (h1 : truthy_list args.filename_custom = false)
    (h2 : truthy_chars args.custom_template = false)
    (h3 : args.no_date = false) (h4 : args.title_only = false)
    (h5 : args.creator_id = false)
    (h6 : args.filename_preset = some p) (h7 : p ≠ [])
    (h8 : presets_find p = none) :
    get_filename_template args = { template := presets_default, warned := true } := by
  have hp : truthy_chars (some p) = true := by
    cases p with
    | nil => exact absurd rfl h7
    | cons c cs => rfl
  simp [get_filename_template, h1, h2, h3, h4, h5, h6, hp, h8]

/-- Claim C9 witness: the unknown preset name bogus warns and falls back
to the default template. -/
theorem C9_unknown_preset_witness :
    get_filename_template { filename_preset := some (str "bogus") }
      = { template := presets_default, warned := true } :=
  C9_unknown_preset _ (str "bogus") rfl rfl rfl rfl rfl rfl (by decide) (by decide)

/-- Claim C10: the run result, in particular every appended audit row, is
the same whatever filename template is passed to the downloader; the
Filename column of each audit row is the fixed dash-joined string built
from the metadata; and for the sample metadata that string differs from
the file name the renderer derives from each of the five non-default
preset templates. -/
theorem C10_audit_filename_fixed :
    (∀ env t1 t2 links, download_run env t1 links = download_run env t2 links) ∧
    (∀ d link, (make_audit_row d link).get? 4 = some (audit_filename d)) ∧
    audit_filename meta0 = str "2022-06-07 - creator - clip" ∧
    preview_substitute presets_no_date (str "20220607") (str "creator") (str "clip")
        (str "123") ≠ audit_filename meta0 ∧
    preview_substitute presets_title_only (str "20220607") (str "creator") (str "clip")
        (str "123") ≠ audit_filename meta0 ∧
    preview_substitute presets_creator_id (str "20220607") (str "creator") (str "clip")
        (str "123") ≠ audit_filename meta0 ∧
    preview_substitute presets_date_title (str "20220607") (str "creator") (str "clip")
        (str "123") ≠ audit_filename meta0 ∧
    preview_substitute presets_clean (str "20220607") (str "creator") (str "clip")
        (str "123") ≠ audit_filename meta0 := by
  refine ⟨fun env t1 t2 links => rfl, fun d link => rfl, by decide, by decide, by decide,
    by decide, by decide, by decide⟩
